import Mathlib

/-!
Verification development for the cell-format value type of a spreadsheet
writer (`src/src/xlsx/xlsxformat.cpp`).  The `Format` class logic of the
cpp file is embedded shallowly: the shared `FormatPrivate` record becomes
the structure `FormatState`, each C++ member function becomes a Lean
function on `FormatState` (mutators return the new state, the
cache-updating key queries return a pair of result and new state).

The private header `xlsxformat_p.h` (field declarations, default values,
the per-bundle `key()/index()/indexValid()` helpers) and the public header
(enumerations, the copy-on-write handle) are not part of the sources at
hand; those parts are modelled from the specification and marked as such
in their doc comments.
-/

/-- Strings are modelled as lists of characters (QString). -/
abbrev Str := List Char

/-- Modelled from the spec: a QColor is either invalid (default constructed,
"no concrete color available") or a concrete rgb value. -/
inductive ColorM where
  | invalid : ColorM
  | rgb : Nat → ColorM
  deriving DecidableEq, Repr

/-- Modelled from the spec: QColor::isValid. -/
def ColorM.isValid : ColorM → Bool
  | ColorM.invalid => false
  | ColorM.rgb _ => true

/-- Horizontal alignment kinds, named as in the source
(`Format::HorizontalAlignment`); the header carrying the enumerator
values is absent, so the values are fixed by `hAlignToInt` below. -/
inductive HAlign where
  | AlignHGeneral | AlignLeft | AlignHCenter | AlignRight
  | AlignHFill | AlignHJustify | AlignHMerge | AlignHDistributed
  deriving DecidableEq, Repr

/-- Vertical alignment kinds (`Format::VerticalAlignment`). -/
inductive VAlign where
  | AlignTop | AlignVCenter | AlignBottom | AlignVJustify | AlignVDistributed
  deriving DecidableEq, Repr

/-- Border style kinds (`Format::BorderStyle`). -/
inductive BorderStyleM where
  | BorderNone | BorderThin | BorderMedium | BorderDashed | BorderDotted
  | BorderThick | BorderDouble | BorderHair
  deriving DecidableEq, Repr

/-- Diagonal border kinds (`Format::DiagonalBorderType`). -/
inductive DiagBorder where
  | DiagonalBorderNone | DiagonalBorderDown | DiagonalBorderUp | DiagonalBorderBoth
  deriving DecidableEq, Repr

/-- Fill pattern kinds (`Format::FillPattern`). -/
inductive FillPatternM where
  | PatternNone | PatternSolid | PatternMediumGray | PatternDarkGray
  | PatternLightGray | PatternDarkHorizontal | PatternDarkVertical
  deriving DecidableEq, Repr

/-- Font script kinds (`Format::FontScript`). -/
inductive FontScriptM where
  | FontScriptNormal | FontScriptSuper | FontScriptSub
  deriving DecidableEq, Repr

/-- Font underline kinds (`Format::FontUnderline`). -/
inductive FontUnderlineM where
  | FontUnderlineNone | FontUnderlineSingle | FontUnderlineDouble
  | FontUnderlineSingleAccounting | FontUnderlineDoubleAccounting
  deriving DecidableEq, Repr

def hAlignToInt : HAlign → Int
  | HAlign.AlignHGeneral => 0
  | HAlign.AlignLeft => 1
  | HAlign.AlignHCenter => 2
  | HAlign.AlignRight => 3
  | HAlign.AlignHFill => 4
  | HAlign.AlignHJustify => 5
  | HAlign.AlignHMerge => 6
  | HAlign.AlignHDistributed => 7

def vAlignToInt : VAlign → Int
  | VAlign.AlignTop => 0
  | VAlign.AlignVCenter => 1
  | VAlign.AlignBottom => 2
  | VAlign.AlignVJustify => 3
  | VAlign.AlignVDistributed => 4

def borderStyleToInt : BorderStyleM → Int
  | BorderStyleM.BorderNone => 0
  | BorderStyleM.BorderThin => 1
  | BorderStyleM.BorderMedium => 2
  | BorderStyleM.BorderDashed => 3
  | BorderStyleM.BorderDotted => 4
  | BorderStyleM.BorderThick => 5
  | BorderStyleM.BorderDouble => 6
  | BorderStyleM.BorderHair => 7

def diagBorderToInt : DiagBorder → Int
  | DiagBorder.DiagonalBorderNone => 0
  | DiagBorder.DiagonalBorderDown => 1
  | DiagBorder.DiagonalBorderUp => 2
  | DiagBorder.DiagonalBorderBoth => 3

def fillPatternToInt : FillPatternM → Int
  | FillPatternM.PatternNone => 0
  | FillPatternM.PatternSolid => 1
  | FillPatternM.PatternMediumGray => 2
  | FillPatternM.PatternDarkGray => 3
  | FillPatternM.PatternLightGray => 4
  | FillPatternM.PatternDarkHorizontal => 5
  | FillPatternM.PatternDarkVertical => 6

def fontScriptToInt : FontScriptM → Int
  | FontScriptM.FontScriptNormal => 0
  | FontScriptM.FontScriptSuper => 1
  | FontScriptM.FontScriptSub => 2

def fontUnderlineToInt : FontUnderlineM → Int
  | FontUnderlineM.FontUnderlineNone => 0
  | FontUnderlineM.FontUnderlineSingle => 1
  | FontUnderlineM.FontUnderlineDouble => 2
  | FontUnderlineM.FontUnderlineSingleAccounting => 3
  | FontUnderlineM.FontUnderlineDoubleAccounting => 4

/-- Byte sequences (QByteArray contents) are lists of byte values. -/
abbrev ByteSeq := List Nat

/-- QDataStream serialization of a 32-bit integer: four bytes, big endian,
two's complement reduction modulo 2^32. -/
def serInt32 (i : Int) : ByteSeq :=
  let n := (i % 4294967296).toNat
  [n / 16777216 % 256, n / 65536 % 256, n / 256 % 256, n % 256]

/-- QDataStream serialization of a bool: one byte. -/
def serBool (b : Bool) : ByteSeq :=
  [if b then 1 else 0]

/-- QDataStream serialization of a QByteArray: 32-bit length, then raw bytes. -/
def serBytes (l : ByteSeq) : ByteSeq :=
  serInt32 (Int.ofNat l.length) ++ l

/-- QDataStream serialization of a QString: 32-bit byte count, then the
UTF-16 code units, two bytes each, big endian. -/
def serStr (s : Str) : ByteSeq :=
  serInt32 (Int.ofNat (2 * s.length)) ++
    s.foldr (fun c acc => c.toNat / 256 % 256 :: c.toNat % 256 :: acc) []

/-- Modelled from the spec: serialization of a color value into a bundle
key (a tag byte and, for a concrete color, its rgb bytes). -/
def serColor : ColorM → ByteSeq
  | ColorM.invalid => [0]
  | ColorM.rgb n =>
    [1, n / 16777216 % 256, n / 65536 % 256, n / 256 % 256, n % 256]

/-- Number-format bundle (`XlsxFormatNumberData` of the private header):
`formatIndex`, `formatString` and the `_valid` flag, exactly the fields the
cpp file accesses. -/
structure NumberData where
  formatIndex : Int
  formatString : Str
  _valid : Bool
  deriving DecidableEq, Repr

/-- Modelled from the spec: the all-default number format (index 0,
empty string, index authoritative). -/
def NumberData.default : NumberData :=
  { formatIndex := 0, formatString := [], _valid := true }

/-- Font bundle: the fields accessed by the cpp file plus the cache fields
(`_dirty`, `_index`, `_indexValid`, `_key`) of the private header. -/
structure FontData where
  size : Int
  italic : Bool
  strikeOut : Bool
  color : ColorM
  themeColor : Str
  bold : Bool
  scirpt : FontScriptM
  underline : FontUnderlineM
  outline : Bool
  shadow : Bool
  name : Str
  family : Int
  scheme : Str
  _dirty : Bool
  _index : Int
  _indexValid : Bool
  _key : ByteSeq
  deriving DecidableEq, Repr

/-- Modelled from the spec: deterministic, order-fixed serialization of the
font bundle's content fields. -/
def serFont (f : FontData) : ByteSeq :=
  serInt32 f.size ++ serBool f.italic ++ serBool f.strikeOut ++
    serColor f.color ++ serStr f.themeColor ++ serBool f.bold ++
    serInt32 (fontScriptToInt f.scirpt) ++
    serInt32 (fontUnderlineToInt f.underline) ++
    serBool f.outline ++ serBool f.shadow ++ serStr f.name ++
    serInt32 f.family ++ serStr f.scheme

/-- Modelled from the spec: lazy canonical sub-key of the font bundle -
recomputed when the bundle's dirty flag is set, which also clears the flag
and invalidates the cached external index; otherwise the cached key is
returned unchanged. -/
def FontData.key (f : FontData) : ByteSeq × FontData :=
  if f._dirty then
    let k := serFont f
    (k, { f with _dirty := false, _indexValid := false, _key := k })
  else
    (f._key, f)

/-- Modelled from the spec: `indexValid()` of a bundle is true only if the
bundle is not dirty and an index was previously set. -/
def FontData.indexValid (f : FontData) : Bool :=
  !f._dirty && f._indexValid

/-- Modelled from the spec: cache an externally assigned font-table index. -/
def FontData.setIndex (f : FontData) (i : Int) : FontData :=
  { f with _index := i, _indexValid := true }

/-- Modelled from the spec: the all-default font bundle (dirty, no cached
index, empty cached key). -/
def FontData.default : FontData :=
  { size := 11, italic := false, strikeOut := false, color := ColorM.invalid,
    themeColor := [], bold := false, scirpt := FontScriptM.FontScriptNormal,
    underline := FontUnderlineM.FontUnderlineNone, outline := false,
    shadow := false, name := ['C','a','l','i','b','r','i'], family := 2,
    scheme := [], _dirty := true, _index := -1, _indexValid := false,
    _key := [] }

/-- Border bundle: the fields accessed by the cpp file plus the cache
fields of the private header. -/
structure BorderData where
  left : BorderStyleM
  right : BorderStyleM
  top : BorderStyleM
  bottom : BorderStyleM
  diagonal : BorderStyleM
  leftColor : ColorM
  rightColor : ColorM
  topColor : ColorM
  bottomColor : ColorM
  diagonalColor : ColorM
  diagonalType : DiagBorder
  _dirty : Bool
  _index : Int
  _indexValid : Bool
  _key : ByteSeq
  deriving DecidableEq, Repr

/-- Modelled from the spec: deterministic, order-fixed serialization of the
border bundle's content fields. -/
def serBorder (b : BorderData) : ByteSeq :=
  serInt32 (borderStyleToInt b.left) ++ serInt32 (borderStyleToInt b.right) ++
    serInt32 (borderStyleToInt b.top) ++ serInt32 (borderStyleToInt b.bottom) ++
    serInt32 (borderStyleToInt b.diagonal) ++
    serColor b.leftColor ++ serColor b.rightColor ++ serColor b.topColor ++
    serColor b.bottomColor ++ serColor b.diagonalColor ++
    serInt32 (diagBorderToInt b.diagonalType)

/-- Modelled from the spec: lazy canonical sub-key of the border bundle. -/
def BorderData.key (b : BorderData) : ByteSeq × BorderData :=
  if b._dirty then
    let k := serBorder b
    (k, { b with _dirty := false, _indexValid := false, _key := k })
  else
    (b._key, b)

/-- Modelled from the spec: border-bundle index validity. -/
def BorderData.indexValid (b : BorderData) : Bool :=
  !b._dirty && b._indexValid

/-- Modelled from the spec: cache an externally assigned border-table index. -/
def BorderData.setIndex (b : BorderData) (i : Int) : BorderData :=
  { b with _index := i, _indexValid := true }

/-- Modelled from the spec: the all-default border bundle. -/
def BorderData.default : BorderData :=
  { left := BorderStyleM.BorderNone, right := BorderStyleM.BorderNone,
    top := BorderStyleM.BorderNone, bottom := BorderStyleM.BorderNone,
    diagonal := BorderStyleM.BorderNone,
    leftColor := ColorM.invalid, rightColor := ColorM.invalid,
    topColor := ColorM.invalid, bottomColor := ColorM.invalid,
    diagonalColor := ColorM.invalid,
    diagonalType := DiagBorder.DiagonalBorderNone,
    _dirty := true, _index := -1, _indexValid := false, _key := [] }

/-- Fill bundle: the fields accessed by the cpp file plus the cache fields
of the private header. -/
structure FillData where
  pattern : FillPatternM
  fgColor : ColorM
  bgColor : ColorM
  _dirty : Bool
  _index : Int
  _indexValid : Bool
  _key : ByteSeq
  deriving DecidableEq, Repr

/-- Modelled from the spec: deterministic, order-fixed serialization of the
fill bundle's content fields. -/
def serFill (l : FillData) : ByteSeq :=
  serInt32 (fillPatternToInt l.pattern) ++ serColor l.fgColor ++ serColor l.bgColor

/-- Modelled from the spec: lazy canonical sub-key of the fill bundle. -/
def FillData.key (l : FillData) : ByteSeq × FillData :=
  if l._dirty then
    let k := serFill l
    (k, { l with _dirty := false, _indexValid := false, _key := k })
  else
    (l._key, l)

/-- Modelled from the spec: fill-bundle index validity. -/
def FillData.indexValid (l : FillData) : Bool :=
  !l._dirty && l._indexValid

/-- Modelled from the spec: cache an externally assigned fill-table index. -/
def FillData.setIndex (l : FillData) (i : Int) : FillData :=
  { l with _index := i, _indexValid := true }

/-- Modelled from the spec: the all-default fill bundle. -/
def FillData.default : FillData :=
  { pattern := FillPatternM.PatternNone, fgColor := ColorM.invalid,
    bgColor := ColorM.invalid, _dirty := true, _index := -1,
    _indexValid := false, _key := [] }

/-- Alignment bundle (`XlsxFormatAlignmentData`): field defaults are fixed
by `Format::alignmentChanged` in the cpp file, which compares against
AlignHGeneral, AlignBottom, 0, false, 0, false. -/
structure AlignmentData where
  alignH : HAlign
  alignV : VAlign
  wrap : Bool
  rotation : Int
  indent : Int
  shinkToFit : Bool
  deriving DecidableEq, Repr

def AlignmentData.default : AlignmentData :=
  { alignH := HAlign.AlignHGeneral, alignV := VAlign.AlignBottom,
    wrap := false, rotation := 0, indent := 0, shinkToFit := false }

/-- Protection bundle (`XlsxFormatProtectionData`). -/
structure ProtectionData where
  hidden : Bool
  locked : Bool
  deriving DecidableEq, Repr

/-- Modelled from the spec: the all-default protection bundle. -/
def ProtectionData.default : ProtectionData :=
  { hidden := false, locked := false }

/-- The shared aggregate state (`FormatPrivate`): the six bundles, the
whole-value dirty flag, the cached whole-value key, the two cached
whole-value indices with their validity flags, the dxf marker and the
theme id. -/
structure FormatState where
  numberData : NumberData
  fontData : FontData
  alignmentData : AlignmentData
  borderData : BorderData
  fillData : FillData
  protectionData : ProtectionData
  dirty : Bool
  formatKey : ByteSeq
  xf_index : Int
  xf_indexValid : Bool
  is_dxf_fomat : Bool
  dxf_index : Int
  dxf_indexValid : Bool
  theme : Int
  deriving DecidableEq, Repr

/-- The default-constructed state: `FormatPrivate::FormatPrivate()` sets
`dirty = true`, `is_dxf_fomat = false`, both cached indices to -1 and
invalid, and `theme = 0`; the bundles take their own defaults. -/
def defaultFormat : FormatState :=
  { numberData := NumberData.default, fontData := FontData.default,
    alignmentData := AlignmentData.default, borderData := BorderData.default,
    fillData := FillData.default, protectionData := ProtectionData.default,
    dirty := true, formatKey := [], xf_index := -1, xf_indexValid := false,
    is_dxf_fomat := false, dxf_index := -1, dxf_indexValid := false,
    theme := 0 }

namespace Format

/-- `Format::numberFormatIndex`. -/
def numberFormatIndex (s : FormatState) : Int :=
  s.numberData.formatIndex

/-- `Format::setNumberFormatIndex`. -/
def setNumberFormatIndex (s : FormatState) (format : Int) : FormatState :=
  { s with dirty := true,
           numberData := { s.numberData with formatIndex := format, _valid := true } }

/-- `Format::numberFormat`. -/
def numberFormat (s : FormatState) : Str :=
  s.numberData.formatString

/-- `Format::setNumberFormat`: an empty string is a no-op; otherwise the
string is stored, the index is marked stale and the whole value dirty. -/
def setNumberFormat (s : FormatState) (format : Str) : FormatState :=
  if format.isEmpty then s
  else
    { s with dirty := true,
             numberData := { s.numberData with formatString := format, _valid := false } }

/-- `Format::numFmtIndexValid`. -/
def numFmtIndexValid (s : FormatState) : Bool :=
  s.numberData._valid

/-- `Format::setNumFmt`. -/
def setNumFmt (s : FormatState) (index : Int) (string : Str) : FormatState :=
  { s with numberData := { formatIndex := index, formatString := string, _valid := true } }

/-- `Format::fontSize`. -/
def fontSize (s : FormatState) : Int :=
  s.fontData.size

/-- `Format::setFontSize`. -/
def setFontSize (s : FormatState) (size : Int) : FormatState :=
  { s with fontData := { s.fontData with size := size, _dirty := true } }

/-- `Format::fontItalic`. -/
def fontItalic (s : FormatState) : Bool :=
  s.fontData.italic

/-- `Format::setFontItalic`. -/
def setFontItalic (s : FormatState) (italic : Bool) : FormatState :=
  { s with fontData := { s.fontData with italic := italic, _dirty := true } }

/-- `Format::fontStrikeOut`. -/
def fontStrikeOut (s : FormatState) : Bool :=
  s.fontData.strikeOut

/-- `Format::setFontStrikeOut`. -/
def setFontStrikeOut (s : FormatState) (strikeOut : Bool) : FormatState :=
  { s with fontData := { s.fontData with strikeOut := strikeOut, _dirty := true } }

/-- `Format::fontColor`: if no concrete color is stored but a theme color
reference is present, the concrete color is unresolved and an invalid
color is returned. -/
def fontColor (s : FormatState) : ColorM :=
  if !s.fontData.color.isValid && !s.fontData.themeColor.isEmpty then
    ColorM.invalid
  else
    s.fontData.color

/-- `Format::setFontColor`. -/
def setFontColor (s : FormatState) (color : ColorM) : FormatState :=
  { s with fontData := { s.fontData with color := color, _dirty := true } }

/-- `Format::fontBold`. -/
def fontBold (s : FormatState) : Bool :=
  s.fontData.bold

/-- `Format::setFontBold`. -/
def setFontBold (s : FormatState) (bold : Bool) : FormatState :=
  { s with fontData := { s.fontData with bold := bold, _dirty := true } }

/-- `Format::fontScript`. -/
def fontScript (s : FormatState) : FontScriptM :=
  s.fontData.scirpt

/-- `Format::setFontScript`. -/
def setFontScript (s : FormatState) (script : FontScriptM) : FormatState :=
  { s with fontData := { s.fontData with scirpt := script, _dirty := true } }

/-- `Format::fontUnderline`. -/
def fontUnderline (s : FormatState) : FontUnderlineM :=
  s.fontData.underline

/-- `Format::setFontUnderline`. -/
def setFontUnderline (s : FormatState) (underline : FontUnderlineM) : FormatState :=
  { s with fontData := { s.fontData with underline := underline, _dirty := true } }

/-- `Format::fontOutline`. -/
def fontOutline (s : FormatState) : Bool :=
  s.fontData.outline

/-- `Format::setFontOutline`. -/
def setFontOutline (s : FormatState) (outline : Bool) : FormatState :=
  { s with fontData := { s.fontData with outline := outline, _dirty := true } }

/-- `Format::fontName`. -/
def fontName (s : FormatState) : Str :=
  s.fontData.name

/-- `Format::setFontName`. -/
def setFontName (s : FormatState) (name : Str) : FormatState :=
  { s with fontData := { s.fontData with name := name, _dirty := true } }

/-- `Format::fontIndexValid`. -/
def fontIndexValid (s : FormatState) : Bool :=
  s.fontData.indexValid

/-- `Format::fontIndex`. -/
def fontIndex (s : FormatState) : Int :=
  s.fontData._index

/-- `Format::setFontIndex`. -/
def setFontIndex (s : FormatState) (index : Int) : FormatState :=
  { s with fontData := s.fontData.setIndex index }

/-- `Format::fontKey`: if the font bundle is dirty, the whole-value flag is
set so that `formatKey` will be regenerated; then the bundle key is
computed. -/
def fontKey (s : FormatState) : ByteSeq × FormatState :=
  let s1 := if s.fontData._dirty then { s with dirty := true } else s
  let (k, fd) := s1.fontData.key
  (k, { s1 with fontData := fd })

/-- `Format::horizontalAlignment`. -/
def horizontalAlignment (s : FormatState) : HAlign :=
  s.alignmentData.alignH

/-- `Format::setHorizontalAlignment`: a non-zero indent is reset to 0
unless the new alignment is general, left, right or distributed; shrink
to fit is cleared for fill, justify and distributed. -/
def setHorizontalAlignment (s : FormatState) (align : HAlign) : FormatState :=
  let a1 :=
    if s.alignmentData.indent ≠ 0 ∧ (align ≠ HAlign.AlignHGeneral ∧
        align ≠ HAlign.AlignLeft ∧ align ≠ HAlign.AlignRight ∧
        align ≠ HAlign.AlignHDistributed) then
      { s.alignmentData with indent := 0 }
    else
      s.alignmentData
  let a2 :=
    if a1.shinkToFit ∧ (align = HAlign.AlignHFill ∨ align = HAlign.AlignHJustify ∨
        align = HAlign.AlignHDistributed) then
      { a1 with shinkToFit := false }
    else
      a1
  { s with alignmentData := { a2 with alignH := align }, dirty := true }

/-- `Format::verticalAlignment`. -/
def verticalAlignment (s : FormatState) : VAlign :=
  s.alignmentData.alignV

/-- `Format::setVerticalAlignment`. -/
def setVerticalAlignment (s : FormatState) (align : VAlign) : FormatState :=
  { s with alignmentData := { s.alignmentData with alignV := align }, dirty := true }

/-- `Format::textWrap`. -/
def textWrap (s : FormatState) : Bool :=
  s.alignmentData.wrap

/-- `Format::setTextWarp` (name as in the source): enabling wrap clears
shrink to fit. -/
def setTextWarp (s : FormatState) (wrap : Bool) : FormatState :=
  let a1 :=
    if wrap ∧ s.alignmentData.shinkToFit then
      { s.alignmentData with shinkToFit := false }
    else
      s.alignmentData
  { s with alignmentData := { a1 with wrap := wrap }, dirty := true }

/-- `Format::rotation`. -/
def rotation (s : FormatState) : Int :=
  s.alignmentData.rotation

/-- `Format::setRotation`. -/
def setRotation (s : FormatState) (rotation : Int) : FormatState :=
  { s with alignmentData := { s.alignmentData with rotation := rotation }, dirty := true }

/-- `Format::indent`. -/
def indent (s : FormatState) : Int :=
  s.alignmentData.indent

/-- `Format::setIndent`: a non-zero indent forces the horizontal alignment
to left unless it is general, left, right or justify. -/
def setIndent (s : FormatState) (indent : Int) : FormatState :=
  let a1 :=
    if indent ≠ 0 ∧ (s.alignmentData.alignH ≠ HAlign.AlignHGeneral ∧
        s.alignmentData.alignH ≠ HAlign.AlignLeft ∧
        s.alignmentData.alignH ≠ HAlign.AlignRight ∧
        s.alignmentData.alignH ≠ HAlign.AlignHJustify) then
      { s.alignmentData with alignH := HAlign.AlignLeft }
    else
      s.alignmentData
  { s with alignmentData := { a1 with indent := indent }, dirty := true }

/-- `Format::shrinkToFit`. -/
def shrinkToFit (s : FormatState) : Bool :=
  s.alignmentData.shinkToFit

/-- `Format::setShrinkToFit`: enabling shrink clears wrap and resets a
fill, justify or distributed horizontal alignment to left. -/
def setShrinkToFit (s : FormatState) (shink : Bool) : FormatState :=
  let a1 :=
    if shink ∧ s.alignmentData.wrap then
      { s.alignmentData with wrap := false }
    else
      s.alignmentData
  let a2 :=
    if shink ∧ (a1.alignH = HAlign.AlignHFill ∨ a1.alignH = HAlign.AlignHJustify ∨
        a1.alignH = HAlign.AlignHDistributed) then
      { a1 with alignH := HAlign.AlignLeft }
    else
      a1
  { s with alignmentData := { a2 with shinkToFit := shink }, dirty := true }

/-- `Format::alignmentChanged`. -/
def alignmentChanged (s : FormatState) : Bool :=
  s.alignmentData.alignH ≠ HAlign.AlignHGeneral ∨
    s.alignmentData.alignV ≠ VAlign.AlignBottom ∨
    s.alignmentData.indent ≠ 0 ∨ s.alignmentData.wrap ∨
    s.alignmentData.rotation ≠ 0 ∨ s.alignmentData.shinkToFit

/-- `Format::leftBorderStyle`. -/
def leftBorderStyle (s : FormatState) : BorderStyleM :=
  s.borderData.left

/-- `Format::setLeftBorderStyle`. -/
def setLeftBorderStyle (s : FormatState) (style : BorderStyleM) : FormatState :=
  { s with borderData := { s.borderData with left := style, _dirty := true } }

/-- `Format::leftBorderColor`. -/
def leftBorderColor (s : FormatState) : ColorM :=
  s.borderData.leftColor

/-- `Format::setLeftBorderColor`. -/
def setLeftBorderColor (s : FormatState) (color : ColorM) : FormatState :=
  { s with borderData := { s.borderData with leftColor := color, _dirty := true } }

/-- `Format::rightBorderStyle`. -/
def rightBorderStyle (s : FormatState) : BorderStyleM :=
  s.borderData.right

/-- `Format::setRightBorderStyle`. -/
def setRightBorderStyle (s : FormatState) (style : BorderStyleM) : FormatState :=
  { s with borderData := { s.borderData with right := style, _dirty := true } }

/-- `Format::rightBorderColor`. -/
def rightBorderColor (s : FormatState) : ColorM :=
  s.borderData.rightColor

/-- `Format::setRightBorderColor`. -/
def setRightBorderColor (s : FormatState) (color : ColorM) : FormatState :=
  { s with borderData := { s.borderData with rightColor := color, _dirty := true } }

/-- `Format::topBorderStyle`. -/
def topBorderStyle (s : FormatState) : BorderStyleM :=
  s.borderData.top

/-- `Format::setTopBorderStyle`. -/
def setTopBorderStyle (s : FormatState) (style : BorderStyleM) : FormatState :=
  { s with borderData := { s.borderData with top := style, _dirty := true } }

/-- `Format::topBorderColor`. -/
def topBorderColor (s : FormatState) : ColorM :=
  s.borderData.topColor

/-- `Format::setTopBorderColor`. -/
def setTopBorderColor (s : FormatState) (color : ColorM) : FormatState :=
  { s with borderData := { s.borderData with topColor := color, _dirty := true } }

/-- `Format::bottomBorderStyle`. -/
def bottomBorderStyle (s : FormatState) : BorderStyleM :=
  s.borderData.bottom

/-- `Format::setBottomBorderStyle`. -/
def setBottomBorderStyle (s : FormatState) (style : BorderStyleM) : FormatState :=
  { s with borderData := { s.borderData with bottom := style, _dirty := true } }

/-- `Format::bottomBorderColor`. -/
def bottomBorderColor (s : FormatState) : ColorM :=
  s.borderData.bottomColor

/-- `Format::setBottomBorderColor`. -/
def setBottomBorderColor (s : FormatState) (color : ColorM) : FormatState :=
  { s with borderData := { s.borderData with bottomColor := color, _dirty := true } }

/-- `Format::diagonalBorderStyle`. -/
def diagonalBorderStyle (s : FormatState) : BorderStyleM :=
  s.borderData.diagonal

/-- `Format::setDiagonalBorderStyle`. -/
def setDiagonalBorderStyle (s : FormatState) (style : BorderStyleM) : FormatState :=
  { s with borderData := { s.borderData with diagonal := style, _dirty := true } }

/-- `Format::diagonalBorderType`. -/
def diagonalBorderType (s : FormatState) : DiagBorder :=
  s.borderData.diagonalType

/-- `Format::setDiagonalBorderType`. -/
def setDiagonalBorderType (s : FormatState) (style : DiagBorder) : FormatState :=
  { s with borderData := { s.borderData with diagonalType := style, _dirty := true } }

/-- `Format::diagonalBorderColor`. -/
def diagonalBorderColor (s : FormatState) : ColorM :=
  s.borderData.diagonalColor

/-- `Format::setDiagonalBorderColor`. -/
def setDiagonalBorderColor (s : FormatState) (color : ColorM) : FormatState :=
  { s with borderData := { s.borderData with diagonalColor := color, _dirty := true } }

/-- `Format::setBorderStyle`: applies the style to the left, right, bottom
and top borders. -/
def setBorderStyle (s : FormatState) (style : BorderStyleM) : FormatState :=
  setTopBorderStyle (setBottomBorderStyle (setRightBorderStyle (setLeftBorderStyle s style) style) style) style

/-- `Format::setBorderColor`: applies the color to the left, right, top
and bottom borders. -/
def setBorderColor (s : FormatState) (color : ColorM) : FormatState :=
  setBottomBorderColor (setTopBorderColor (setRightBorderColor (setLeftBorderColor s color) color) color) color

/-- `Format::borderIndexValid`. -/
def borderIndexValid (s : FormatState) : Bool :=
  s.borderData.indexValid

/-- `Format::borderIndex`. -/
def borderIndex (s : FormatState) : Int :=
  s.borderData._index

/-- `Format::setBorderIndex`. -/
def setBorderIndex (s : FormatState) (index : Int) : FormatState :=
  { s with borderData := s.borderData.setIndex index }

/-- `Format::borderKey`: a dirty border bundle first marks the whole value
dirty so that `formatKey` is regenerated. -/
def borderKey (s : FormatState) : ByteSeq × FormatState :=
  let s1 := if s.borderData._dirty then { s with dirty := true } else s
  let (k, bd) := s1.borderData.key
  (k, { s1 with borderData := bd })

/-- `Format::fillPattern`. -/
def fillPattern (s : FormatState) : FillPatternM :=
  s.fillData.pattern

/-- `Format::setFillPattern`. -/
def setFillPattern (s : FormatState) (pattern : FillPatternM) : FormatState :=
  { s with fillData := { s.fillData with pattern := pattern, _dirty := true } }

/-- `Format::patternForegroundColor`. -/
def patternForegroundColor (s : FormatState) : ColorM :=
  s.fillData.fgColor

/-- `Format::setPatternForegroundColor`: a valid color over a PatternNone
fill promotes the pattern to PatternSolid. -/
def setPatternForegroundColor (s : FormatState) (color : ColorM) : FormatState :=
  let f1 :=
    if color.isValid ∧ s.fillData.pattern = FillPatternM.PatternNone then
      { s.fillData with pattern := FillPatternM.PatternSolid }
    else
      s.fillData
  { s with fillData := { f1 with fgColor := color, _dirty := true } }

/-- `Format::patternBackgroundColor`. -/
def patternBackgroundColor (s : FormatState) : ColorM :=
  s.fillData.bgColor

/-- `Format::setPatternBackgroundColor`: a valid color over a PatternNone
fill promotes the pattern to PatternSolid. -/
def setPatternBackgroundColor (s : FormatState) (color : ColorM) : FormatState :=
  let f1 :=
    if color.isValid ∧ s.fillData.pattern = FillPatternM.PatternNone then
      { s.fillData with pattern := FillPatternM.PatternSolid }
    else
      s.fillData
  { s with fillData := { f1 with bgColor := color, _dirty := true } }

/-- `Format::fillIndexValid`. -/
def fillIndexValid (s : FormatState) : Bool :=
  s.fillData.indexValid

/-- `Format::fillIndex`. -/
def fillIndex (s : FormatState) : Int :=
  s.fillData._index

/-- `Format::setFillIndex`. -/
def setFillIndex (s : FormatState) (index : Int) : FormatState :=
  { s with fillData := s.fillData.setIndex index }

/-- `Format::fillKey`: a dirty fill bundle first marks the whole value
dirty so that `formatKey` is regenerated. -/
def fillKey (s : FormatState) : ByteSeq × FormatState :=
  let s1 := if s.fillData._dirty then { s with dirty := true } else s
  let (k, ld) := s1.fillData.key
  (k, { s1 with fillData := ld })

/-- `Format::hidden`. -/
def hidden (s : FormatState) : Bool :=
  s.protectionData.hidden

/-- `Format::setHidden`. -/
def setHidden (s : FormatState) (hidden : Bool) : FormatState :=
  { s with protectionData := { s.protectionData with hidden := hidden }, dirty := true }

/-- `Format::locked`. -/
def locked (s : FormatState) : Bool :=
  s.protectionData.locked

/-- `Format::setLocked`. -/
def setLocked (s : FormatState) (locked : Bool) : FormatState :=
  { s with protectionData := { s.protectionData with locked := locked }, dirty := true }

/-- `Format::formatKey`: if the whole-value dirty flag or any of the font,
border or fill bundle dirty flags is set, the whole-value key is rebuilt
as the order-fixed QDataStream concatenation of the three sub-keys, the
number-format index, the alignment fields and the protection flags; the
rebuild caches the key, clears the whole-value dirty flag and invalidates
both cached whole-value indices.  Otherwise the cached key is returned
with the state untouched. -/
def formatKey (s : FormatState) : ByteSeq × FormatState :=
  if s.dirty || s.fontData._dirty || s.borderData._dirty || s.fillData._dirty then
    let (fk, s1) := fontKey s
    let (bk, s2) := borderKey s1
    let (lk, s3) := fillKey s2
    let key := serBytes fk ++ serBytes bk ++ serBytes lk ++
      serInt32 s3.numberData.formatIndex ++
      serInt32 (hAlignToInt s3.alignmentData.alignH) ++
      serInt32 (vAlignToInt s3.alignmentData.alignV) ++
      serInt32 s3.alignmentData.indent ++
      serInt32 s3.alignmentData.rotation ++
      serBool s3.alignmentData.shinkToFit ++
      serBool s3.alignmentData.wrap ++
      serBool s3.protectionData.hidden ++
      serBool s3.protectionData.locked
    (key, { s3 with formatKey := key, dirty := false,
                    xf_indexValid := false, dxf_indexValid := false })
  else
    (s.formatKey, s)

/-- `Format::setXfIndex`. -/
def setXfIndex (s : FormatState) (index : Int) : FormatState :=
  { s with xf_index := index, xf_indexValid := true }

/-- `Format::xfIndex`. -/
def xfIndex (s : FormatState) : Int :=
  s.xf_index

/-- `Format::xfIndexValid`: the cached normal-style index is trusted only
while the whole-value dirty flag is clear. -/
def xfIndexValid (s : FormatState) : Bool :=
  !s.dirty && s.xf_indexValid

/-- `Format::setDxfIndex`. -/
def setDxfIndex (s : FormatState) (index : Int) : FormatState :=
  { s with dxf_index := index, dxf_indexValid := true }

/-- `Format::dxfIndex`. -/
def dxfIndex (s : FormatState) : Int :=
  s.dxf_index

/-- `Format::dxfIndexValid`. -/
def dxfIndexValid (s : FormatState) : Bool :=
  !s.dirty && s.dxf_indexValid

/-- `Format::operator==`: equality of the two whole-value keys. -/
def eqOp (a b : FormatState) : Bool :=
  decide ((formatKey a).1 = (formatKey b).1)

/-- `Format::operator!=`: inequality of the two whole-value keys. -/
def neOp (a b : FormatState) : Bool :=
  decide ((formatKey a).1 ≠ (formatKey b).1)

/-- `Format::isDxfFormat`. -/
def isDxfFormat (s : FormatState) : Bool :=
  s.is_dxf_fomat

/-- Length of the color directive token recognized at the head of a format
string by the regular expression of `Format::isDateTimeFormat`
(`[Green]`, `[White]`, `[Blue]`, `[Magenta]`, `[Yellow]`, `[Cyan]`,
`[Red]`); 0 when no token starts here. -/
def tokLen (s : Str) : Nat :=
  if ['[','G','r','e','e','n',']'].isPrefixOf s then 7
  else if ['[','W','h','i','t','e',']'].isPrefixOf s then 7
  else if ['[','B','l','u','e',']'].isPrefixOf s then 6
  else if ['[','M','a','g','e','n','t','a',']'].isPrefixOf s then 9
  else if ['[','Y','e','l','l','o','w',']'].isPrefixOf s then 8
  else if ['[','C','y','a','n',']'].isPrefixOf s then 6
  else if ['[','R','e','d',']'].isPrefixOf s then 5
  else 0

/-- Single left-to-right pass removing every non-overlapping color
directive token, as `QString::remove(QRegularExpression)` does in
`Format::isDateTimeFormat`. -/
def removeColorTokens : Str → Str
  | [] => []
  | c :: rest =>
    let n := tokLen (c :: rest)
    if n = 0 then c :: removeColorTokens rest
    else removeColorTokens (rest.drop (n - 1))
termination_by s => s.length
decreasing_by
  · simp
  · simp [List.length_drop]
    omega

/-- Containment test of the regular expression `[dmhys]` used by
`Format::isDateTimeFormat`. -/
def hasDateChar (s : Str) : Bool :=
  s.any fun c => c = 'd' || c = 'm' || c = 'h' || c = 'y' || c = 's'

/-- `Format::isDateTimeFormat`: with a valid index and no custom string,
true exactly on the built-in date/time index ranges [15,22] and [45,47];
otherwise the custom string decides after color tokens are stripped. -/
def isDateTimeFormat (s : FormatState) : Bool :=
  if s.numberData._valid && s.numberData.formatString.isEmpty then
    let idx := s.numberData.formatIndex
    if (15 ≤ idx ∧ idx ≤ 22) ∨ (45 ≤ idx ∧ idx ≤ 47) then true else false
  else
    if hasDateChar (removeColorTokens s.numberData.formatString) then true else false

end Format

/-- The public mutators of the Format class, one constructor per setter
with its argument; `numberFormatOp` carries a head character and a tail so
that only the non-empty (effectful) calls of `setNumberFormat` are
represented. -/
inductive Op where
  | numberFormatIndexOp : Int → Op
  | numberFormatOp : Char → Str → Op
  | horizontalAlignmentOp : HAlign → Op
  | verticalAlignmentOp : VAlign → Op
  | textWarpOp : Bool → Op
  | rotationOp : Int → Op
  | indentOp : Int → Op
  | shrinkToFitOp : Bool → Op
  | hiddenOp : Bool → Op
  | lockedOp : Bool → Op
  | fontSizeOp : Int → Op
  | fontItalicOp : Bool → Op
  | fontStrikeOutOp : Bool → Op
  | fontColorOp : ColorM → Op
  | fontBoldOp : Bool → Op
  | fontScriptOp : FontScriptM → Op
  | fontUnderlineOp : FontUnderlineM → Op
  | fontOutlineOp : Bool → Op
  | fontNameOp : Str → Op
  | leftBorderStyleOp : BorderStyleM → Op
  | leftBorderColorOp : ColorM → Op
  | rightBorderStyleOp : BorderStyleM → Op
  | rightBorderColorOp : ColorM → Op
  | topBorderStyleOp : BorderStyleM → Op
  | topBorderColorOp : ColorM → Op
  | bottomBorderStyleOp : BorderStyleM → Op
  | bottomBorderColorOp : ColorM → Op
  | diagonalBorderStyleOp : BorderStyleM → Op
  | diagonalBorderTypeOp : DiagBorder → Op
  | diagonalBorderColorOp : ColorM → Op
  | borderStyleOp : BorderStyleM → Op
  | borderColorOp : ColorM → Op
  | fillPatternOp : FillPatternM → Op
  | patternForegroundColorOp : ColorM → Op
  | patternBackgroundColorOp : ColorM → Op
  deriving DecidableEq, Repr

/-- Apply one public mutator to a state. -/
def applyOp (o : Op) (s : FormatState) : FormatState :=
  match o with
  | Op.numberFormatIndexOp i => Format.setNumberFormatIndex s i
  | Op.numberFormatOp c cs => Format.setNumberFormat s (c :: cs)
  | Op.horizontalAlignmentOp a => Format.setHorizontalAlignment s a
  | Op.verticalAlignmentOp a => Format.setVerticalAlignment s a
  | Op.textWarpOp b => Format.setTextWarp s b
  | Op.rotationOp i => Format.setRotation s i
  | Op.indentOp i => Format.setIndent s i
  | Op.shrinkToFitOp b => Format.setShrinkToFit s b
  | Op.hiddenOp b => Format.setHidden s b
  | Op.lockedOp b => Format.setLocked s b
  | Op.fontSizeOp i => Format.setFontSize s i
  | Op.fontItalicOp b => Format.setFontItalic s b
  | Op.fontStrikeOutOp b => Format.setFontStrikeOut s b
  | Op.fontColorOp c => Format.setFontColor s c
  | Op.fontBoldOp b => Format.setFontBold s b
  | Op.fontScriptOp x => Format.setFontScript s x
  | Op.fontUnderlineOp x => Format.setFontUnderline s x
  | Op.fontOutlineOp b => Format.setFontOutline s b
  | Op.fontNameOp n => Format.setFontName s n
  | Op.leftBorderStyleOp x => Format.setLeftBorderStyle s x
  | Op.leftBorderColorOp c => Format.setLeftBorderColor s c
  | Op.rightBorderStyleOp x => Format.setRightBorderStyle s x
  | Op.rightBorderColorOp c => Format.setRightBorderColor s c
  | Op.topBorderStyleOp x => Format.setTopBorderStyle s x
  | Op.topBorderColorOp c => Format.setTopBorderColor s c
  | Op.bottomBorderStyleOp x => Format.setBottomBorderStyle s x
  | Op.bottomBorderColorOp c => Format.setBottomBorderColor s c
  | Op.diagonalBorderStyleOp x => Format.setDiagonalBorderStyle s x
  | Op.diagonalBorderTypeOp x => Format.setDiagonalBorderType s x
  | Op.diagonalBorderColorOp c => Format.setDiagonalBorderColor s c
  | Op.borderStyleOp x => Format.setBorderStyle s x
  | Op.borderColorOp c => Format.setBorderColor s c
  | Op.fillPatternOp p => Format.setFillPattern s p
  | Op.patternForegroundColorOp c => Format.setPatternForegroundColor s c
  | Op.patternBackgroundColorOp c => Format.setPatternBackgroundColor s c

/-- Whether a mutator writes the whole-value dirty flag directly (the
number-format, alignment and protection setters do; the font, border and
fill setters only mark their own bundle dirty). -/
def setsWholeDirty : Op → Bool
  | Op.numberFormatIndexOp _ => true
  | Op.numberFormatOp _ _ => true
  | Op.horizontalAlignmentOp _ => true
  | Op.verticalAlignmentOp _ => true
  | Op.textWarpOp _ => true
  | Op.rotationOp _ => true
  | Op.indentOp _ => true
  | Op.shrinkToFitOp _ => true
  | Op.hiddenOp _ => true
  | Op.lockedOp _ => true
  | _ => false

/-- Whether a mutator is one of the two wrap/shrink setters. -/
def isWrapShrinkOp : Op → Bool
  | Op.textWarpOp _ => true
  | Op.shrinkToFitOp _ => true
  | _ => false

/-- Any dirty source consulted by `Format::formatKey` at call time. -/
def dirtyAny (s : FormatState) : Bool :=
  s.dirty || s.fontData._dirty || s.borderData._dirty || s.fillData._dirty

/-- Apply a call sequence of public mutators, oldest first. -/
def applyOps (l : List Op) (s : FormatState) : FormatState :=
  l.foldl (fun t o => applyOp o t) s

/-- States reachable from the default-constructed format through the
public setters. -/
inductive Reachable : FormatState → Prop where
  | init : Reachable defaultFormat
  | step {s : FormatState} (o : Op) : Reachable s → Reachable (applyOp o s)

/-- The unconditional single-attribute setters: each writes one attribute
(and its dirty flag) without any value-dependent normalization.  The
setters with write-time normalization rules (horizontal alignment,
indent, wrap, shrink to fit, fill pattern and fill colors, the compound
border setters) are deliberately absent: reordering those is not
key-preserving. -/
inductive SimpleOp where
  | sNumberFormatIndex : Int → SimpleOp
  | sVerticalAlignment : VAlign → SimpleOp
  | sRotation : Int → SimpleOp
  | sHidden : Bool → SimpleOp
  | sLocked : Bool → SimpleOp
  | sFontSize : Int → SimpleOp
  | sFontItalic : Bool → SimpleOp
  | sFontStrikeOut : Bool → SimpleOp
  | sFontColor : ColorM → SimpleOp
  | sFontBold : Bool → SimpleOp
  | sFontScript : FontScriptM → SimpleOp
  | sFontUnderline : FontUnderlineM → SimpleOp
  | sFontOutline : Bool → SimpleOp
  | sFontName : Str → SimpleOp
  | sLeftBorderStyle : BorderStyleM → SimpleOp
  | sLeftBorderColor : ColorM → SimpleOp
  | sRightBorderStyle : BorderStyleM → SimpleOp
  | sRightBorderColor : ColorM → SimpleOp
  | sTopBorderStyle : BorderStyleM → SimpleOp
  | sTopBorderColor : ColorM → SimpleOp
  | sBottomBorderStyle : BorderStyleM → SimpleOp
  | sBottomBorderColor : ColorM → SimpleOp
  | sDiagonalBorderStyle : BorderStyleM → SimpleOp
  | sDiagonalBorderType : DiagBorder → SimpleOp
  | sDiagonalBorderColor : ColorM → SimpleOp
  deriving DecidableEq, Repr

/-- Apply one unconditional setter. -/
def applyS (o : SimpleOp) (s : FormatState) : FormatState :=
  match o with
  | SimpleOp.sNumberFormatIndex i => Format.setNumberFormatIndex s i
  | SimpleOp.sVerticalAlignment a => Format.setVerticalAlignment s a
  | SimpleOp.sRotation i => Format.setRotation s i
  | SimpleOp.sHidden b => Format.setHidden s b
  | SimpleOp.sLocked b => Format.setLocked s b
  | SimpleOp.sFontSize i => Format.setFontSize s i
  | SimpleOp.sFontItalic b => Format.setFontItalic s b
  | SimpleOp.sFontStrikeOut b => Format.setFontStrikeOut s b
  | SimpleOp.sFontColor c => Format.setFontColor s c
  | SimpleOp.sFontBold b => Format.setFontBold s b
  | SimpleOp.sFontScript x => Format.setFontScript s x
  | SimpleOp.sFontUnderline x => Format.setFontUnderline s x
  | SimpleOp.sFontOutline b => Format.setFontOutline s b
  | SimpleOp.sFontName n => Format.setFontName s n
  | SimpleOp.sLeftBorderStyle x => Format.setLeftBorderStyle s x
  | SimpleOp.sLeftBorderColor c => Format.setLeftBorderColor s c
  | SimpleOp.sRightBorderStyle x => Format.setRightBorderStyle s x
  | SimpleOp.sRightBorderColor c => Format.setRightBorderColor s c
  | SimpleOp.sTopBorderStyle x => Format.setTopBorderStyle s x
  | SimpleOp.sTopBorderColor c => Format.setTopBorderColor s c
  | SimpleOp.sBottomBorderStyle x => Format.setBottomBorderStyle s x
  | SimpleOp.sBottomBorderColor c => Format.setBottomBorderColor s c
  | SimpleOp.sDiagonalBorderStyle x => Format.setDiagonalBorderStyle s x
  | SimpleOp.sDiagonalBorderType x => Format.setDiagonalBorderType s x
  | SimpleOp.sDiagonalBorderColor c => Format.setDiagonalBorderColor s c

/-- The attribute written by an unconditional setter, as a small number:
two `SimpleOp`s assign the same attribute exactly when their `starget`s
agree. -/
def starget : SimpleOp → Nat
  | SimpleOp.sNumberFormatIndex _ => 0
  | SimpleOp.sVerticalAlignment _ => 1
  | SimpleOp.sRotation _ => 2
  | SimpleOp.sHidden _ => 3
  | SimpleOp.sLocked _ => 4
  | SimpleOp.sFontSize _ => 5
  | SimpleOp.sFontItalic _ => 6
  | SimpleOp.sFontStrikeOut _ => 7
  | SimpleOp.sFontColor _ => 8
  | SimpleOp.sFontBold _ => 9
  | SimpleOp.sFontScript _ => 10
  | SimpleOp.sFontUnderline _ => 11
  | SimpleOp.sFontOutline _ => 12
  | SimpleOp.sFontName _ => 13
  | SimpleOp.sLeftBorderStyle _ => 14
  | SimpleOp.sLeftBorderColor _ => 15
  | SimpleOp.sRightBorderStyle _ => 16
  | SimpleOp.sRightBorderColor _ => 17
  | SimpleOp.sTopBorderStyle _ => 18
  | SimpleOp.sTopBorderColor _ => 19
  | SimpleOp.sBottomBorderStyle _ => 20
  | SimpleOp.sBottomBorderColor _ => 21
  | SimpleOp.sDiagonalBorderStyle _ => 22
  | SimpleOp.sDiagonalBorderType _ => 23
  | SimpleOp.sDiagonalBorderColor _ => 24

/-- Apply a call sequence of unconditional setters, oldest first. -/
def applyAllS (l : List SimpleOp) (s : FormatState) : FormatState :=
  l.foldl (fun t o => applyS o t) s

/-- Modelled from the spec: the copy-on-write handle layer (header absent
from the sources).  A world is a pool of aggregate-state cells together
with the handle table: handle `h` refers to cell `handles[h]`.  A cell is
shared when more than one handle refers to it. -/
structure World where
  handles : List Nat
  cells : List FormatState

/-- Modelled from the spec: the aggregate state a handle currently sees. -/
def World.stateOf (w : World) (h : Nat) : FormatState :=
  w.cells.getD (w.handles.getD h 0) defaultFormat

/-- Modelled from the spec: copy construction / assignment of a handle is
an O(1) reference-count bump - the new handle refers to the same cell. -/
def World.copy (w : World) (h : Nat) : World × Nat :=
  ({ w with handles := w.handles ++ [w.handles.getD h 0] }, w.handles.length)

/-- Modelled from the spec: fork-then-mutate.  A mutating call on a handle
whose cell is referenced by more than one handle first clones the cell
and repoints only this handle to the clone; an unshared cell is mutated
in place. -/
def World.mutate (w : World) (h : Nat) (o : Op) : World :=
  let c := w.handles.getD h 0
  if 1 < w.handles.count c then
    { handles := w.handles.set h w.cells.length,
      cells := w.cells ++ [applyOp o (w.cells.getD c defaultFormat)] }
  else
    { w with cells := w.cells.set c (applyOp o (w.cells.getD c defaultFormat)) }

/-- Written from the spec sentence for the whole-value key (§4.3): the
order-fixed concatenation of the font sub-key, the border sub-key, the
fill sub-key, the number-format index, the two alignment kinds, the
indent, the rotation, the shrink-to-fit and word-wrap flags and the two
protection flags. -/
def formatKeySpec (s : FormatState) : ByteSeq :=
  serBytes s.fontData.key.1 ++ serBytes s.borderData.key.1 ++
    serBytes s.fillData.key.1 ++
    serInt32 s.numberData.formatIndex ++
    serInt32 (hAlignToInt s.alignmentData.alignH) ++
    serInt32 (vAlignToInt s.alignmentData.alignV) ++
    serInt32 s.alignmentData.indent ++
    serInt32 s.alignmentData.rotation ++
    serBool s.alignmentData.shinkToFit ++
    serBool s.alignmentData.wrap ++
    serBool s.protectionData.hidden ++
    serBool s.protectionData.locked

/-- Written from the claim sentence for the date/time heuristic: with a
valid index and no custom string the built-in ranges decide; otherwise
the color-stripped custom string must contain one of d, m, h, y, s. -/
def isDateTimeFormatSpec (s : FormatState) : Bool :=
  if s.numberData._valid && s.numberData.formatString.isEmpty then
    decide ((15 ≤ s.numberData.formatIndex ∧ s.numberData.formatIndex ≤ 22) ∨
      (45 ≤ s.numberData.formatIndex ∧ s.numberData.formatIndex ≤ 47))
  else
    Format.hasDateChar (Format.removeColorTokens s.numberData.formatString)

/-- After any `formatKey` call the whole-value dirty flag and all three
bundle dirty flags of the resulting state are clear (either the rebuild
cleared them, or they were already clear). -/
theorem formatKey_snd_flags (s : FormatState) :
    (Format.formatKey s).2.dirty = false ∧
    (Format.formatKey s).2.fontData._dirty = false ∧
    (Format.formatKey s).2.borderData._dirty = false ∧
    (Format.formatKey s).2.fillData._dirty = false := by
  by_cases hf : s.fontData._dirty <;> by_cases hb : s.borderData._dirty <;>
    by_cases hl : s.fillData._dirty <;> by_cases hd : s.dirty <;>
      simp [Format.formatKey, Format.fontKey, Format.borderKey, Format.fillKey,
        FontData.key, BorderData.key, FillData.key, hf, hb, hl, hd]

/-- A `formatKey` call made while any dirty source is set rebuilds the key
and drops both cached whole-value indices. -/
theorem formatKey_snd_invalid (s : FormatState) (h : dirtyAny s = true) :
    (Format.formatKey s).2.xf_indexValid = false ∧
    (Format.formatKey s).2.dxf_indexValid = false := by
  unfold dirtyAny at h
  by_cases hf : s.fontData._dirty <;> by_cases hb : s.borderData._dirty <;>
    by_cases hl : s.fillData._dirty <;> by_cases hd : s.dirty <;>
      simp_all [Format.formatKey, Format.fontKey, Format.borderKey, Format.fillKey,
        FontData.key, BorderData.key, FillData.key]

/-- C9: calling setNumberFormat with an empty string is a no-op - the
resulting state is exactly the prior state, so the number-format string,
index, validity flag, dirty flags and every other observable field are
unchanged. -/
theorem setNumberFormat_empty_noop (s : FormatState) :
    Format.setNumberFormat s [] = s := rfl

/-- C8: isDateTimeFormat agrees, on every state, with the specified
heuristic - built-in index ranges [15,22] and [45,47] when the index is
valid and no custom string is stored, otherwise presence of one of
d, m, h, y, s in the custom string after the closed set of bracketed
color tokens is removed. -/
theorem isDateTimeFormat_correct (s : FormatState) :
    Format.isDateTimeFormat s = isDateTimeFormatSpec s := by
  unfold Format.isDateTimeFormat isDateTimeFormatSpec
  by_cases h1 : (s.numberData._valid && s.numberData.formatString.isEmpty) = true
  · simp only [h1, if_true]
    by_cases h2 : (15 ≤ s.numberData.formatIndex ∧ s.numberData.formatIndex ≤ 22) ∨
        (45 ≤ s.numberData.formatIndex ∧ s.numberData.formatIndex ≤ 47)
    · simp [h2]
    · simp [h2]
  · simp only [h1, if_false, Bool.false_eq_true]
    by_cases h2 : Format.hasDateChar (Format.removeColorTokens s.numberData.formatString) = true
    · simp [h2]
    · simp at h2
      simp [h2]

/-- C7: with a non-zero indent, setHorizontalAlignment resets the indent
to 0 unless the new alignment is general, left, right or distributed, in
which case the indent is kept; the new alignment is stored either way. -/
theorem setHorizontalAlignment_indent_reset (s : FormatState) (a : HAlign)
    (h : Format.indent s ≠ 0) :
    Format.indent (Format.setHorizontalAlignment s a) =
      (if a = HAlign.AlignHGeneral ∨ a = HAlign.AlignLeft ∨
          a = HAlign.AlignRight ∨ a = HAlign.AlignHDistributed then
        Format.indent s
      else 0) ∧
    Format.horizontalAlignment (Format.setHorizontalAlignment s a) = a := by
  unfold Format.indent at h
  cases a <;>
    simp [Format.setHorizontalAlignment, Format.indent, Format.horizontalAlignment,
      h, apply_ite AlignmentData.indent]

/-- Witness for the indent-reset theorem at indent 3: fill resets the
indent, right keeps it. -/
theorem setHorizontalAlignment_indent_reset_witness :
    (Format.indent (Format.setIndent defaultFormat 3) ≠ 0 ∧
      Format.indent (Format.setHorizontalAlignment (Format.setIndent defaultFormat 3) HAlign.AlignHFill) = 0) ∧
    Format.indent (Format.setHorizontalAlignment (Format.setIndent defaultFormat 3) HAlign.AlignRight) = 3 := by
  refine ⟨⟨by decide, ?_⟩, ?_⟩
  · have h := setHorizontalAlignment_indent_reset (Format.setIndent defaultFormat 3)
      HAlign.AlignHFill (by decide)
    simpa using h.1
  · have h := setHorizontalAlignment_indent_reset (Format.setIndent defaultFormat 3)
      HAlign.AlignRight (by decide)
    simpa using h.1

/-- C5: operator== returns true exactly when the two whole-value keys are
byte-identical, and operator!= is its negation; both are functions of the
two states' keys alone, so sharing of storage plays no role. -/
theorem eqOp_iff_formatKey (a b : FormatState) :
    (Format.eqOp a b = true ↔ (Format.formatKey a).1 = (Format.formatKey b).1) ∧
    Format.neOp a b = !Format.eqOp a b := by
  constructor
  · simp [Format.eqOp]
  · simp [Format.eqOp, Format.neOp]

/-- C10: a formatKey call made while any dirty flag (whole value, font,
border or fill) is set leaves both whole-value index caches invalid, even
when setXfIndex and setDxfIndex were called after the mutation and
immediately before the call. -/
theorem formatKey_discards_indices (s : FormatState) (i j : Int)
    (h : dirtyAny s = true) :
    Format.xfIndexValid (Format.formatKey (Format.setDxfIndex (Format.setXfIndex s i) j)).2 = false ∧
    Format.dxfIndexValid (Format.formatKey (Format.setDxfIndex (Format.setXfIndex s i) j)).2 = false := by
  have ht : dirtyAny (Format.setDxfIndex (Format.setXfIndex s i) j) = true := by
    simpa [dirtyAny, Format.setDxfIndex, Format.setXfIndex] using h
  have h1 := formatKey_snd_flags (Format.setDxfIndex (Format.setXfIndex s i) j)
  have h2 := formatKey_snd_invalid (Format.setDxfIndex (Format.setXfIndex s i) j) ht
  unfold Format.xfIndexValid Format.dxfIndexValid
  rw [h1.1, h2.1, h2.2]
  simp

/-- Witness for the index-discarding theorem: the default-constructed
state is dirty; setting both indices and then querying the key leaves
both index caches invalid. -/
theorem formatKey_discards_indices_witness :
    dirtyAny defaultFormat = true ∧
    Format.xfIndexValid (Format.formatKey (Format.setDxfIndex (Format.setXfIndex defaultFormat 5) 7)).2 = false ∧
    Format.dxfIndexValid (Format.formatKey (Format.setDxfIndex (Format.setXfIndex defaultFormat 5) 7)).2 = false :=
  ⟨by decide, (formatKey_discards_indices defaultFormat 5 7 (by decide)).1,
    (formatKey_discards_indices defaultFormat 5 7 (by decide)).2⟩

/-- Any public mutator leaves the cached raw index fields untouched, sets
the whole-value dirty flag exactly when it is a number-format, alignment
or protection setter (the bundle setters leave it as it was), and always
leaves at least one dirty source set. -/
theorem applyOp_dirty_profile (o : Op) (u : FormatState)
    (hd : u.dirty = false) :
    (applyOp o u).dirty = setsWholeDirty o ∧
    dirtyAny (applyOp o u) = true ∧
    (applyOp o u).xf_indexValid = u.xf_indexValid ∧
    (applyOp o u).dxf_indexValid = u.dxf_indexValid := by
  cases o <;>
    simp [applyOp, setsWholeDirty, dirtyAny, hd,
      Format.setNumberFormatIndex, Format.setNumberFormat,
      Format.setHorizontalAlignment, Format.setVerticalAlignment,
      Format.setTextWarp, Format.setRotation, Format.setIndent,
      Format.setShrinkToFit, Format.setHidden, Format.setLocked,
      Format.setFontSize, Format.setFontItalic, Format.setFontStrikeOut,
      Format.setFontColor, Format.setFontBold, Format.setFontScript,
      Format.setFontUnderline, Format.setFontOutline, Format.setFontName,
      Format.setLeftBorderStyle, Format.setLeftBorderColor,
      Format.setRightBorderStyle, Format.setRightBorderColor,
      Format.setTopBorderStyle, Format.setTopBorderColor,
      Format.setBottomBorderStyle, Format.setBottomBorderColor,
      Format.setDiagonalBorderStyle, Format.setDiagonalBorderType,
      Format.setDiagonalBorderColor, Format.setBorderStyle,
      Format.setBorderColor, Format.setFillPattern,
      Format.setPatternForegroundColor, Format.setPatternBackgroundColor]

/-- setXfIndex leaves the dirty flag as it was. -/
theorem setXfIndex_dirty (s : FormatState) (k : Int) :
    (Format.setXfIndex s k).dirty = s.dirty := rfl

/-- setXfIndex marks the raw normal-index cache as set. -/
theorem setXfIndex_raw_valid (s : FormatState) (k : Int) :
    (Format.setXfIndex s k).xf_indexValid = true := rfl

/-- setDxfIndex leaves the dirty flag as it was. -/
theorem setDxfIndex_dirty (s : FormatState) (k : Int) :
    (Format.setDxfIndex s k).dirty = s.dirty := rfl

/-- setDxfIndex marks the raw differential-index cache as set. -/
theorem setDxfIndex_raw_valid (s : FormatState) (k : Int) :
    (Format.setDxfIndex s k).dxf_indexValid = true := rfl

/-- C1 counterexample: on the default-constructed format (whose whole-value
dirty flag is set by the constructor), calling setXfIndex(5) does not make
xfIndexValid() true - the validity query also demands a clear dirty flag. -/
theorem setXfIndex_not_sufficient :
    Format.xfIndexValid (Format.setXfIndex defaultFormat 5) = false := by decide

/-- C1 as amended: starting from a state whose key has just been queried
(clearing the whole-value dirty flag), setXfIndex/setDxfIndex make both
validity queries true; a subsequent number-format, alignment or protection
setter makes them false at once, while a font, border or fill setter
leaves them true until the next formatKey call - which reports false and
discards both indices; while the whole-value dirty flag is set, even
setting fresh indices does not restore validity. -/
theorem xf_dxf_invalidation (s : FormatState) (i j k1 k2 : Int) (o : Op) :
    Format.xfIndexValid (Format.setDxfIndex (Format.setXfIndex (Format.formatKey s).2 i) j) = true ∧
    Format.dxfIndexValid (Format.setDxfIndex (Format.setXfIndex (Format.formatKey s).2 i) j) = true ∧
    Format.xfIndexValid (applyOp o (Format.setDxfIndex (Format.setXfIndex (Format.formatKey s).2 i) j)) = !setsWholeDirty o ∧
    Format.dxfIndexValid (applyOp o (Format.setDxfIndex (Format.setXfIndex (Format.formatKey s).2 i) j)) = !setsWholeDirty o ∧
    Format.xfIndexValid (Format.setXfIndex (applyOp o (Format.setDxfIndex (Format.setXfIndex (Format.formatKey s).2 i) j)) k1) = !setsWholeDirty o ∧
    Format.dxfIndexValid (Format.setDxfIndex (applyOp o (Format.setDxfIndex (Format.setXfIndex (Format.formatKey s).2 i) j)) k2) = !setsWholeDirty o ∧
    Format.xfIndexValid (Format.formatKey (applyOp o (Format.setDxfIndex (Format.setXfIndex (Format.formatKey s).2 i) j))).2 = false ∧
    Format.dxfIndexValid (Format.formatKey (applyOp o (Format.setDxfIndex (Format.setXfIndex (Format.formatKey s).2 i) j))).2 = false := by
  have hflags := formatKey_snd_flags s
  have hd : (Format.setDxfIndex (Format.setXfIndex (Format.formatKey s).2 i) j).dirty = false := by
    simpa [Format.setDxfIndex, Format.setXfIndex] using hflags.1
  have hprof := applyOp_dirty_profile o
    (Format.setDxfIndex (Format.setXfIndex (Format.formatKey s).2 i) j) hd
  have hxv : (Format.setDxfIndex (Format.setXfIndex (Format.formatKey s).2 i) j).xf_indexValid = true := by
    simp [Format.setDxfIndex, Format.setXfIndex]
  have hdv : (Format.setDxfIndex (Format.setXfIndex (Format.formatKey s).2 i) j).dxf_indexValid = true := by
    simp [Format.setDxfIndex]
  have hinv := formatKey_snd_invalid
    (applyOp o (Format.setDxfIndex (Format.setXfIndex (Format.formatKey s).2 i) j)) hprof.2.1
  have hkflags := formatKey_snd_flags
    (applyOp o (Format.setDxfIndex (Format.setXfIndex (Format.formatKey s).2 i) j))
  refine ⟨?_, ?_, ?_, ?_, ?_, ?_, ?_, ?_⟩
  · simp [Format.xfIndexValid, hd, hxv]
  · simp [Format.dxfIndexValid, hd, hdv]
  · simp [Format.xfIndexValid, hprof.1, hprof.2.2.1, hxv]
  · simp [Format.dxfIndexValid, hprof.1, hprof.2.2.2, hdv]
  · simp only [Format.xfIndexValid, setXfIndex_dirty, setXfIndex_raw_valid, hprof.1,
      Bool.and_true]
  · simp only [Format.dxfIndexValid, setDxfIndex_dirty, setDxfIndex_raw_valid, hprof.1,
      Bool.and_true]
  · simp [Format.xfIndexValid, hkflags.1, hinv.1]
  · simp [Format.dxfIndexValid, hkflags.1, hinv.2]

/-- C4: formatKey recomputes exactly when the whole-value dirty flag or a
font, border or fill bundle dirty flag is set at call time - in that case
the produced key is the order-fixed concatenation of the font, border and
fill sub-keys, the number-format index, the two alignment kinds, indent,
rotation, the shrink-to-fit and word-wrap flags and the hidden and locked
flags; with no dirty source set the cached key is returned and the state
is untouched. -/
theorem formatKey_recompute (s : FormatState) :
    (dirtyAny s = true → (Format.formatKey s).1 = formatKeySpec s) ∧
    (dirtyAny s = false → Format.formatKey s = (s.formatKey, s)) := by
  constructor
  · intro h
    unfold dirtyAny at h
    by_cases hf : s.fontData._dirty <;> by_cases hb : s.borderData._dirty <;>
      by_cases hl : s.fillData._dirty <;> by_cases hd : s.dirty <;>
        simp_all [Format.formatKey, Format.fontKey, Format.borderKey, Format.fillKey,
          FontData.key, BorderData.key, FillData.key, formatKeySpec]
  · intro h
    unfold dirtyAny at h
    simp only [Bool.or_eq_false_iff] at h
    simp [Format.formatKey, h.1.1.1, h.1.1.2, h.1.2, h.2]

/-- Witness for the recompute theorem: the dirty default state recomputes
to the specified concatenation; the state just after a key query has no
dirty source and returns its cache with no state change. -/
theorem formatKey_recompute_witness :
    (dirtyAny defaultFormat = true ∧
      (Format.formatKey defaultFormat).1 = formatKeySpec defaultFormat) ∧
    (dirtyAny (Format.formatKey defaultFormat).2 = false ∧
      Format.formatKey (Format.formatKey defaultFormat).2 =
        ((Format.formatKey defaultFormat).2.formatKey, (Format.formatKey defaultFormat).2)) :=
  ⟨⟨by decide, (formatKey_recompute defaultFormat).1 (by decide)⟩,
   ⟨by decide, (formatKey_recompute (Format.formatKey defaultFormat).2).2 (by decide)⟩⟩

/-- setTextWarp preserves mutual exclusion of wrap and shrink to fit. -/
theorem setTextWarp_excl (s : FormatState) (b : Bool)
    (h : ¬(Format.textWrap s = true ∧ Format.shrinkToFit s = true)) :
    ¬(Format.textWrap (Format.setTextWarp s b) = true ∧
      Format.shrinkToFit (Format.setTextWarp s b) = true) := by
  cases b <;> by_cases hs : s.alignmentData.shinkToFit <;>
    simp_all [Format.setTextWarp, Format.textWrap, Format.shrinkToFit]

/-- setShrinkToFit preserves mutual exclusion of wrap and shrink to fit. -/
theorem setShrinkToFit_excl (s : FormatState) (b : Bool)
    (h : ¬(Format.textWrap s = true ∧ Format.shrinkToFit s = true)) :
    ¬(Format.textWrap (Format.setShrinkToFit s b) = true ∧
      Format.shrinkToFit (Format.setShrinkToFit s b) = true) := by
  cases b <;> by_cases hw : s.alignmentData.wrap <;>
    simp_all [Format.setShrinkToFit, Format.textWrap, Format.shrinkToFit,
      apply_ite AlignmentData.wrap]

/-- The only wrap/shrink writers among the public mutators are the two
dedicated setters. -/
theorem isWrapShrinkOp_cases (o : Op) (h : isWrapShrinkOp o = true) :
    (∃ b, o = Op.textWarpOp b) ∨ (∃ b, o = Op.shrinkToFitOp b) := by
  cases o <;> simp_all [isWrapShrinkOp]

/-- No public mutator other than the two wrap/shrink setters can turn
either flag on. -/
theorem applyOp_no_set_wrap_shrink (s : FormatState) (o : Op)
    (ho : isWrapShrinkOp o = false) :
    (Format.textWrap (applyOp o s) = true → Format.textWrap s = true) ∧
    (Format.shrinkToFit (applyOp o s) = true → Format.shrinkToFit s = true) := by
  cases o <;>
    simp_all [isWrapShrinkOp, applyOp, Format.textWrap, Format.shrinkToFit,
      Format.setNumberFormatIndex, Format.setNumberFormat,
      Format.setHorizontalAlignment, Format.setVerticalAlignment,
      Format.setRotation, Format.setIndent, Format.setHidden, Format.setLocked,
      Format.setFontSize, Format.setFontItalic, Format.setFontStrikeOut,
      Format.setFontColor, Format.setFontBold, Format.setFontScript,
      Format.setFontUnderline, Format.setFontOutline, Format.setFontName,
      Format.setLeftBorderStyle, Format.setLeftBorderColor,
      Format.setRightBorderStyle, Format.setRightBorderColor,
      Format.setTopBorderStyle, Format.setTopBorderColor,
      Format.setBottomBorderStyle, Format.setBottomBorderColor,
      Format.setDiagonalBorderStyle, Format.setDiagonalBorderType,
      Format.setDiagonalBorderColor, Format.setBorderStyle,
      Format.setBorderColor, Format.setFillPattern,
      Format.setPatternForegroundColor, Format.setPatternBackgroundColor,
      apply_ite AlignmentData.wrap, apply_ite AlignmentData.shinkToFit]

/-- Every public mutator preserves mutual exclusion of wrap and shrink. -/
theorem applyOp_preserves_excl (o : Op) (s : FormatState)
    (h : ¬(Format.textWrap s = true ∧ Format.shrinkToFit s = true)) :
    ¬(Format.textWrap (applyOp o s) = true ∧
      Format.shrinkToFit (applyOp o s) = true) := by
  by_cases ho : isWrapShrinkOp o = true
  · rcases isWrapShrinkOp_cases o ho with ⟨b, rfl⟩ | ⟨b, rfl⟩
    · exact setTextWarp_excl s b h
    · exact setShrinkToFit_excl s b h
  · intro hc
    have hmono := applyOp_no_set_wrap_shrink s o (by simpa using ho)
    exact h ⟨hmono.1 hc.1, hmono.2 hc.2⟩

/-- C6: in every state reachable from the default-constructed format via
the public setters, word wrap and shrink to fit are never both on;
setTextWarp(true) turns wrap on and shrink off, setShrinkToFit(true)
turns shrink on and wrap off, and no other public mutator can turn either
flag on. -/
theorem wrap_shrink_exclusive :
    (∀ s, Reachable s → ¬(Format.textWrap s = true ∧ Format.shrinkToFit s = true)) ∧
    (∀ s, Format.textWrap (Format.setTextWarp s true) = true ∧
      Format.shrinkToFit (Format.setTextWarp s true) = false) ∧
    (∀ s, Format.shrinkToFit (Format.setShrinkToFit s true) = true ∧
      Format.textWrap (Format.setShrinkToFit s true) = false) ∧
    (∀ s o, isWrapShrinkOp o = false →
      (Format.textWrap (applyOp o s) = true → Format.textWrap s = true) ∧
      (Format.shrinkToFit (applyOp o s) = true → Format.shrinkToFit s = true)) := by
  refine ⟨?_, ?_, ?_, fun s o ho => applyOp_no_set_wrap_shrink s o ho⟩
  · intro s hr
    induction hr with
    | init => decide
    | step o hr ih => exact applyOp_preserves_excl o _ ih
  · intro s
    refine ⟨by simp [Format.setTextWarp, Format.textWrap], ?_⟩
    by_cases hs : s.alignmentData.shinkToFit <;>
      simp [Format.setTextWarp, Format.shrinkToFit, hs]
  · intro s
    refine ⟨by simp [Format.setShrinkToFit, Format.shrinkToFit], ?_⟩
    by_cases hw : s.alignmentData.wrap <;>
      simp [Format.setShrinkToFit, Format.textWrap, hw, apply_ite AlignmentData.wrap]

/-- Witness for the wrap/shrink theorem: the state reached by enabling
wrap then shrink on a fresh format respects the exclusion, and a font
setter cannot turn wrap on. -/
theorem wrap_shrink_exclusive_witness :
    ¬(Format.textWrap (applyOps [Op.textWarpOp true, Op.shrinkToFitOp true] defaultFormat) = true ∧
      Format.shrinkToFit (applyOps [Op.textWarpOp true, Op.shrinkToFitOp true] defaultFormat) = true) ∧
    (Format.textWrap (applyOp (Op.fontSizeOp 20) defaultFormat) = true →
      Format.textWrap defaultFormat = true) :=
  ⟨wrap_shrink_exclusive.1 _
      (Reachable.step (Op.shrinkToFitOp true) (Reachable.step (Op.textWarpOp true) Reachable.init)),
    (wrap_shrink_exclusive.2.2.2 defaultFormat (Op.fontSizeOp 20) (by decide)).1⟩

/-- Two unconditional single-attribute setters that write distinct
attributes commute as state transformers. -/
theorem applyS_comm (a b : SimpleOp) (h : starget a ≠ starget b) (s : FormatState) :
    applyS b (applyS a s) = applyS a (applyS b s) := by
  cases a <;> cases b <;> first | rfl | simp [starget] at h

/-- C2 as amended: two formats built independently from fresh defaults by
the same assignments in any two orders get byte-identical keys, provided
the assignments are the unconditional single-attribute setters and no two
of them write the same attribute; reordering the normalizing setters
(horizontal alignment, indent, wrap, shrink, fill pattern/colors) can
change the result. -/
theorem formatKey_order_independent (l1 l2 : List SimpleOp)
    (hp : l1.Perm l2)
    (hd : l1.Pairwise (fun a b => starget a ≠ starget b)) :
    (Format.formatKey (applyAllS l1 defaultFormat)).1 =
      (Format.formatKey (applyAllS l2 defaultFormat)).1 := by
  have hstates : applyAllS l1 defaultFormat = applyAllS l2 defaultFormat := by
    unfold applyAllS
    apply hp.foldl_eq'
    intro x hx y hy z
    by_cases hxy : x = y
    · subst hxy; rfl
    · exact applyS_comm x y
        (List.Pairwise.forall (fun a b hab => fun e => hab e.symm) hd hx hy hxy) z
  rw [hstates]

/-- C2 counterexample: the same two assignments - indent 3 and horizontal
alignment fill - applied to fresh formats in the two possible orders
produce different whole-value keys (one order ends at fill/indent 0, the
other at left/indent 3). -/
theorem formatKey_order_counterexample :
    [Op.indentOp 3, Op.horizontalAlignmentOp HAlign.AlignHFill].Perm
      [Op.horizontalAlignmentOp HAlign.AlignHFill, Op.indentOp 3] ∧
    (Format.formatKey (applyOps [Op.indentOp 3, Op.horizontalAlignmentOp HAlign.AlignHFill] defaultFormat)).1 ≠
      (Format.formatKey (applyOps [Op.horizontalAlignmentOp HAlign.AlignHFill, Op.indentOp 3] defaultFormat)).1 :=
  ⟨by decide, by decide⟩

/-- Witness for the order-independence theorem: font size and font bold
assignments in both orders give the same key. -/
theorem formatKey_order_independent_witness :
    [SimpleOp.sFontSize 20, SimpleOp.sFontBold true].Perm
      [SimpleOp.sFontBold true, SimpleOp.sFontSize 20] ∧
    [SimpleOp.sFontSize 20, SimpleOp.sFontBold true].Pairwise
      (fun a b => starget a ≠ starget b) ∧
    (Format.formatKey (applyAllS [SimpleOp.sFontSize 20, SimpleOp.sFontBold true] defaultFormat)).1 =
      (Format.formatKey (applyAllS [SimpleOp.sFontBold true, SimpleOp.sFontSize 20] defaultFormat)).1 :=
  ⟨by decide, by decide,
    formatKey_order_independent _ _ (by decide) (by decide)⟩

/-- C3: fork isolation.  Copy handle `a` to a fresh handle `b`, then apply
any public mutator through `b`: handle `a` still sees exactly the
aggregate state it saw before the copy, so every attribute getter and the
whole-value key of `a` are unchanged (font size and the key are spelled
out as representatives). -/
theorem fork_isolation (w : World) (a : Nat) (o : Op)
    (ha : a < w.handles.length)
    (hc : w.handles.getD a 0 < w.cells.length) :
    ((w.copy a).1.mutate (w.copy a).2 o).stateOf a = w.stateOf a ∧
    Format.fontSize (((w.copy a).1.mutate (w.copy a).2 o).stateOf a) =
      Format.fontSize (w.stateOf a) ∧
    (Format.formatKey (((w.copy a).1.mutate (w.copy a).2 o).stateOf a)).1 =
      (Format.formatKey (w.stateOf a)).1 := by
  have hmem : w.handles.getD a 0 ∈ w.handles := by
    rw [List.getD_eq_getElem?_getD, List.getElem?_eq_getElem ha]
    simp [List.getElem_mem ha]
  have hgb : (w.handles ++ [w.handles.getD a 0]).getD w.handles.length 0 =
      w.handles.getD a 0 := by
    rw [List.getD_eq_getElem?_getD, List.getElem?_concat_length]
    rfl
  have hcount : 1 < (w.handles ++ [w.handles.getD a 0]).count (w.handles.getD a 0) := by
    rw [List.count_append]
    have h1 : 0 < w.handles.count (w.handles.getD a 0) :=
      List.count_pos_iff.mpr hmem
    have h2 : ([w.handles.getD a 0]).count (w.handles.getD a 0) = 1 :=
      List.count_singleton_self _
    omega
  have hmut : World.mutate ⟨w.handles ++ [w.handles.getD a 0], w.cells⟩ w.handles.length o =
      ⟨(w.handles ++ [w.handles.getD a 0]).set w.handles.length w.cells.length,
        w.cells ++ [applyOp o (w.cells.getD (w.handles.getD a 0) defaultFormat)]⟩ := by
    unfold World.mutate
    simp only [hgb]
    rw [if_pos hcount]
  have hga : ((w.handles ++ [w.handles.getD a 0]).set w.handles.length w.cells.length).getD a 0 =
      w.handles.getD a 0 := by
    rw [List.getD_eq_getElem?_getD, List.getElem?_set_ne (Nat.ne_of_gt ha),
      List.getElem?_append_left ha, ← List.getD_eq_getElem?_getD]
  have hgc : ∀ x : FormatState,
      (w.cells ++ [x]).getD (w.handles.getD a 0) defaultFormat =
        w.cells.getD (w.handles.getD a 0) defaultFormat := by
    intro x
    rw [List.getD_eq_getElem?_getD, List.getElem?_append_left hc,
      ← List.getD_eq_getElem?_getD]
  have hmain : ((w.copy a).1.mutate (w.copy a).2 o).stateOf a = w.stateOf a := by
    show (World.mutate ⟨w.handles ++ [w.handles.getD a 0], w.cells⟩ w.handles.length o).stateOf a =
      w.stateOf a
    rw [hmut]
    unfold World.stateOf
    simp only [hga, hgc]
  exact ⟨hmain, by rw [hmain], by rw [hmain]⟩

/-- Witness for fork isolation: one cell, one handle, copy it and set the
font size to 20 through the copy - the original handle's state is the
untouched default. -/
theorem fork_isolation_witness :
    0 < (World.mk [0] [defaultFormat]).handles.length ∧
    (World.mk [0] [defaultFormat]).handles.getD 0 0 < (World.mk [0] [defaultFormat]).cells.length ∧
    (((World.mk [0] [defaultFormat]).copy 0).1.mutate ((World.mk [0] [defaultFormat]).copy 0).2
        (Op.fontSizeOp 20)).stateOf 0 = (World.mk [0] [defaultFormat]).stateOf 0 :=
  ⟨by decide, by decide,
    (fork_isolation (World.mk [0] [defaultFormat]) 0 (Op.fontSizeOp 20)
      (by decide) (by decide)).1⟩
